import Mathlib

/-!
Verification of the hq-warehouse checkout pipeline
(src/hq_warehouse/command_line.py and src/hq_warehouse/models.py).

The Python source is shallowly embedded: the trivial in-memory caches
(CURRENCY, FOREX, CURRENCY_USD) become explicit state values that are
threaded through the functions, the relational store becomes a list of
rows, Django ORM point lookups (`objects.get`) become list searches that
distinguish the DoesNotExist case (caught by the source) from the
MultipleObjectsReturned case (uncaught, modelled as a crash outcome),
and uncaught Python exceptions (TypeError on an unknown model keyword,
AttributeError on a None dereference, UnboundLocalError) become explicit
crash outcomes.  Dates are encoded as natural numbers y*10000+m*100+d,
which is strictly monotone in the calendar order used by the source
(the descending order_by on date_valid, and strftime round-trips), and Python floats
and Decimals are modelled as exact rationals.
-/

namespace HqW

/-- A warehouse Currency row (models.py Currency): the fields the
checkout code reads.  `id` is the primary key. -/
structure CurRow where
  id : Nat
  code : String
  name : String
deriving DecidableEq

/-- A warehouse Forex row as the checkout code in command_line.py uses it:
currency_from / currency_to foreign keys (by currency id), date_valid,
and the numeric rate read as `forex.rate` (spec section 3 names the field
`rate`; models.py declares the column as `exchange_rate`, a mismatch that
claim C10 treats at the construction boundary). -/
structure FxRow where
  curFrom : Nat
  curTo : Nat
  dateValid : Nat
  rate : Rat
deriving DecidableEq

/-- The CURRENCY/CURRENCY_USD globals of command_line.py: an id-keyed
map plus the designated base currency. -/
structure CurCache where
  map : List (Nat × CurRow)
  usd : Option CurRow
deriving DecidableEq

/-- A FOREX cache key: the `from:to:YYYY-MM-DD` string of the source,
decoded into its (currency_from id, currency_to id, date) components
(the string round-trip via split/strftime is injective on valid keys). -/
abbrev FxKey := Nat × Nat × Nat

/-- The FOREX global of command_line.py. -/
abbrev FxCache := List (FxKey × FxRow)

/-- Lookup in the FOREX cache (dict lookup; later insertions shadow). -/
def fxLookup (fc : FxCache) (k : FxKey) : Option FxRow :=
  (fc.find? (fun p => decide (p.1 = k))).map (fun p => p.2)

/-- add_currency_cache (command_line.py lines 173-183): store under the
currency id; set CURRENCY_USD the first time a currency whose code is
"USD" arrives (the source guard: not CURRENCY_USD, and the code equals "USD"). -/
def add_currency_cache (cc : CurCache) (c : CurRow) : CurCache :=
  { map := (c.id, c) :: cc.map
  , usd := if cc.usd.isNone && c.code == "USD" then some c else cc.usd }

/-- get_currency (command_line.py lines 158-171): cache first, then the
store (`Currency.objects.get(id=id)`, DoesNotExist caught and turned
into None); a store hit is added to the cache.  The store lookup is by
the primary key, which the database keeps unique, so a first-match
search is faithful. -/
def get_currency (cc : CurCache) (curStore : List CurRow) (i : Nat) :
    Option CurRow × CurCache :=
  match cc.map.find? (fun p => decide (p.1 = i)) with
  | some p => (some p.2, cc)
  | none =>
    match curStore.find? (fun c => decide (c.id = i)) with
    | some c => (some c, add_currency_cache cc c)
    | none => (none, cc)

/-- add_forex_cache (command_line.py lines 222-236): the key is built
from the fields of the forex row being cached, i.e. from the row that
was actually found, not from any requested key. -/
def fxKeyOf (r : FxRow) : FxKey := (r.curFrom, r.curTo, r.dateValid)

/-- add_forex_cache as a cache update (dict assignment FOREX[key]). -/
def add_forex_cache (fc : FxCache) (r : FxRow) : FxCache :=
  (fxKeyOf r, r) :: fc

/-- Resolution of a Django filter comparison of a foreign key column
against a possibly-None currency object: `filter(currency_from=cf)`
matches a row only when cf is an object with that primary key; with
cf = None nothing matches (the column is non-null). -/
def currMatch (c : Option CurRow) (i : Nat) : Bool :=
  match c with
  | some c => decide (c.id = i)
  | none => false

/-- The fallback query of get_forex:
filter then order_by descending date_valid then first() keeps a row of maximal
date_valid.  The SQL tie order is unspecified; the embedding keeps the
earliest-listed row among ties. -/
def mostRecent : List FxRow → Option FxRow
  | [] => none
  | r :: rs =>
    match mostRecent rs with
    | none => some r
    | some m => if r.dateValid < m.dateValid then some m else some r

/-- Outcome of one get_forex call.  `hit` is the cache branch, `found`
the store branch, `crash` an uncaught MultipleObjectsReturned from the
exact `objects.get` (only DoesNotExist is caught by the source). -/
inductive FxLook where
  | hit (r : FxRow)
  | found (r : FxRow)
  | notFound
  | crash
deriving DecidableEq

/-- Result of get_forex: the outcome plus the caches it leaves behind. -/
structure FxRes where
  look : FxLook
  fcache : FxCache
  ccache : CurCache
deriving DecidableEq

/-- get_forex (command_line.py lines 185-220).  Faithful to the source:
on a cache miss the exact `(from, to, date)` lookup is performed but its
result is then unconditionally overwritten by the fallback query
(filter on the currency pair, order_by descending date_valid, first())
(there is no guard on the second try block), so the requested date no
longer constrains what is returned; whatever the fallback finds is
cached via add_forex_cache. -/
def get_forex (cc : CurCache) (curStore : List CurRow) (fc : FxCache)
    (fstore : List FxRow) (key : FxKey) : FxRes :=
  match fxLookup fc key with
  | some r => ⟨.hit r, fc, cc⟩
  | none =>
    let r1 := get_currency cc curStore key.1
    let r2 := get_currency r1.2 curStore key.2.1
    let exact := fstore.filter (fun r =>
      currMatch r1.1 r.curFrom && currMatch r2.1 r.curTo &&
        decide (r.dateValid = key.2.2))
    if 2 ≤ exact.length then ⟨.crash, fc, r2.2⟩
    else
      match mostRecent (fstore.filter (fun r =>
          currMatch r1.1 r.curFrom && currMatch r2.1 r.curTo)) with
      | some r => ⟨.found r, add_forex_cache fc r, r2.2⟩
      | none => ⟨.notFound, fc, r2.2⟩

theorem mostRecent_eq_none {l : List FxRow} (h : mostRecent l = none) :
    l = [] := by
  cases l with
  | nil => rfl
  | cons r rs =>
    exfalso
    cases hm : mostRecent rs with
    | none => simp [mostRecent, hm] at h
    | some m => simp only [mostRecent, hm] at h; split at h <;> simp_all

theorem mostRecent_mem {l : List FxRow} {m : FxRow}
    (h : mostRecent l = some m) : m ∈ l := by
  induction l with
  | nil => simp [mostRecent] at h
  | cons r rs ih =>
    cases hm : mostRecent rs with
    | none =>
      simp only [mostRecent, hm, Option.some_inj] at h
      exact h ▸ List.mem_cons_self r rs
    | some m0 =>
      simp only [mostRecent, hm] at h
      split at h
      · exact List.mem_cons_of_mem r (ih (hm.trans h))
      · exact (Option.some_inj.mp h) ▸ List.mem_cons_self r rs

theorem mostRecent_max : ∀ {l : List FxRow} {m : FxRow},
    mostRecent l = some m → ∀ x ∈ l, x.dateValid ≤ m.dateValid := by
  intro l
  induction l with
  | nil => intro m h; simp [mostRecent] at h
  | cons r rs ih =>
    intro m h x hx
    rw [List.mem_cons] at hx
    cases hm : mostRecent rs with
    | none =>
      have hnil := mostRecent_eq_none hm
      simp only [mostRecent, hm, Option.some_inj] at h
      rcases hx with hx | hx
      · simp [hx, h]
      · rw [hnil] at hx; exact absurd hx (List.not_mem_nil x)
    | some m0 =>
      simp only [mostRecent, hm] at h
      split at h
      · rename_i hlt
        have hm0 : m0 = m := Option.some_inj.mp h
        subst hm0
        rcases hx with hx | hx
        · subst hx; exact le_of_lt hlt
        · exact ih hm x hx
      · rename_i hlt
        have hrm : r = m := Option.some_inj.mp h
        rcases hx with hx | hx
        · simp [hx, hrm]
        · have hle := ih hm x hx
          have h0 : m0.dateValid ≤ r.dateValid := le_of_not_lt hlt
          exact hrm ▸ le_trans hle h0

/-- A value of a warehouse parameter set (the wparams dict of
command_line.py).  Currency references are by primary key, dates by the
numeric encoding, Python floats and Decimals by exact rationals. -/
inductive Val where
  | vnat (n : Nat)
  | vstr (s : String)
  | vbool (b : Bool)
  | vrat (q : Rat)
  | vcur (id : Nat)
  | vdate (d : Nat)
deriving DecidableEq

/-- A warehouse parameter set: the wparams dict, as ordered key-value
pairs (keys are inserted at most once by the checkout code). -/
abbrev Params := List (String × Val)

/-- Dict lookup in a parameter set. -/
def pget (p : Params) (f : String) : Option Val :=
  (p.find? (fun kv => kv.1 == f)).map (fun kv => kv.2)

/-- Static description of a destination model, read off models.py: the
declared settable field names, Meta.unique_together, and the fields
declared individually unique (only the implicit primary key `id` in
this schema — neither Currency.code nor any Forex field is declared
unique in models.py). -/
structure ModelDesc where
  fields : List String
  unique_together : List (List String)
  uniqf : List String
deriving DecidableEq

/-- The constraint list walked by save_to_warehouse:
`uniques = list(model._meta.unique_together) + uniqf`. -/
def modelUniques (m : ModelDesc) : List (List String) :=
  m.unique_together ++ m.uniqf.map (fun f => [f])

/-- dict_with_fields (command_line.py lines 77-84): the sub-dict of the
given fields, or the empty dict as soon as one field is missing. -/
def dict_with_fields (org : Params) (fields : List String) : Params :=
  if fields.all (fun f => (pget org f).isSome) then
    fields.filterMap (fun f => (pget org f).map (fun v => (f, v)))
  else []

/-- A persisted warehouse row: a fresh primary key plus the parameters
it was created from. -/
structure WRow where
  rid : Nat
  data : Params
deriving DecidableEq

/-- A destination table of the warehouse store. -/
abbrev WStore := List WRow

/-- Does a stored row carry exactly these field values
(`model.objects.get(**uniq_params)` comparison)? -/
def rowMatches (r : WRow) (ps : Params) : Bool :=
  ps.all (fun kv => pget r.data kv.1 == some kv.2)

/-- A persistence failure raised by the external engine during
`wobj.save()` that the embedding cannot compute from the declared
constraints: a non-uniqueness IntegrityError (missing reference,
null violation) or decimal.InvalidOperation from forex arithmetic.
save_to_warehouse is verified against every possible value. -/
inductive ExtFail where
  | otherIntegrity
  | invalidOp
deriving DecidableEq

/-- The observable outcome of save_to_warehouse: a freshly written row,
an existing row returned by the dedup lookup (the source returns the
row object in both cases; "written" is the try-branch, "dup" the
except-branch), None (rejected), or an uncaught exception. -/
inductive WriteOutcome where
  | written (r : WRow)
  | dup (r : WRow)
  | rejected
  | crash
deriving DecidableEq

/-- Result of save_to_warehouse: outcome, the store afterwards, and the
number of `model.objects.get` dedup lookups performed against the
store. -/
structure SaveRes where
  outcome : WriteOutcome
  store : WStore
  lookups : Nat
deriving DecidableEq

/-- The dedup loop of save_to_warehouse (lines 121-137): walk the
unique constraints in declaration order; an incomplete constraint
aborts with None; otherwise look the sub-dict up in the store
(`objects.get`, DoesNotExist caught, MultipleObjectsReturned uncaught)
and return the first hit as the duplicate. -/
def dedupLookup (store : WStore) (ps : Params) :
    List (List String) → Nat → SaveRes
  | [], n => ⟨.rejected, store, n⟩
  | u :: rest, n =>
    let up := dict_with_fields ps u
    if up.isEmpty then ⟨.rejected, store, n⟩
    else
      match store.filter (fun r => rowMatches r up) with
      | [] => dedupLookup store ps rest (n + 1)
      | [e] => ⟨.dup e, store, n + 1⟩
      | _ => ⟨.crash, store, n + 1⟩

/-- save_to_warehouse (command_line.py lines 86-137).  Construction
`model(**wparams)` raises TypeError (uncaught) on any key that is not a
declared field; then `wobj.save()` may raise IntegrityError — computed
from the declared unique constraints, or injected as a non-uniqueness
integrity failure — which falls through to the dedup loop, or
decimal.InvalidOperation, which returns None at once.  On success a
fresh row is appended. -/
def save_to_warehouse (m : ModelDesc) (store : WStore) (wparams : Params)
    (ext : Option ExtFail) : SaveRes :=
  if wparams.any (fun kv => !(m.fields.contains kv.1)) then
    ⟨.crash, store, 0⟩
  else
    match ext with
    | some .invalidOp => ⟨.rejected, store, 0⟩
    | some .otherIntegrity => dedupLookup store wparams (modelUniques m) 0
    | none =>
      if (modelUniques m).any (fun u =>
          !(dict_with_fields wparams u).isEmpty &&
            store.any (fun r => rowMatches r (dict_with_fields wparams u))) then
        dedupLookup store wparams (modelUniques m) 0
      else
        ⟨.written ⟨store.length, wparams⟩, store ++ [⟨store.length, wparams⟩], 0⟩

/-- The warehouse Currency model (models.py lines 33-53 plus the Origin
base): settable fields and its unique constraints.  models.py declares
no uniqueness on `code` and no Meta.unique_together; only the implicit
primary key is unique. -/
def currencyModel : ModelDesc :=
  { fields := ["id", "batch_id", "origin_id", "insert_date", "code", "name"]
  , unique_together := []
  , uniqf := ["id"] }

/-- The warehouse Forex model (models.py lines 56-95): the rate column
is declared as `exchange_rate`; there is no field named `rate`.  Meta
declares index_together only — no unique_together. -/
def forexModel : ModelDesc :=
  { fields := ["id", "batch_id", "origin_id", "insert_date",
               "currency_from", "currency_to", "date_valid", "exchange_rate"]
  , unique_together := []
  , uniqf := ["id"] }

/-- The ValidOffer model (models.py lines 146-179): unique_together is
declared on (hotel_id, breakfast_included, valid_from, valid_to). -/
def validOfferModel : ModelDesc :=
  { fields := ["id", "batch_id", "origin_id", "insert_date", "hotel_id",
               "price_usd", "original_price", "original_currency",
               "breakfast_included", "valid_from", "valid_to", "invalid"]
  , unique_together := [["hotel_id", "breakfast_included",
                         "valid_from", "valid_to"]]
  , uniqf := ["id"] }

/-- The InvalidOffer model (models.py lines 182-199): same unique
declaration inside its own table, without the `invalid` flag field. -/
def invalidOfferModel : ModelDesc :=
  { fields := ["id", "batch_id", "origin_id", "insert_date", "hotel_id",
               "price_usd", "original_price", "original_currency",
               "breakfast_included", "valid_from", "valid_to"]
  , unique_together := [["hotel_id", "breakfast_included",
                         "valid_from", "valid_to"]]
  , uniqf := ["id"] }

/-- The uniqueness field set the specification asserts for both offer
tables, written down from the words of the spec for comparison with the
declarations of models.py. -/
def specClaimedOfferUnique : List String :=
  ["hotel_id", "breakfast_included", "checkin_date", "checkout_date"]

/-- match_pass with the pattern of one or more digits anchored on both
sides (the id fields of checkout_forex and checkout_offer). -/
def digitsMatch (s : String) : Bool :=
  !s.isEmpty && s.toList.all Char.isDigit

/-- Python int() on a digit string. -/
def strToNat (s : String) : Nat :=
  s.toList.foldl (fun n c => 10 * n + (c.toNat - 48)) 0

/-- match_pass with the signed-integer pattern of valid_offer_flag
(an optional minus sign followed by one or more digits). -/
def signedIntMatch (s : String) : Bool :=
  match s.toList with
  | [] => false
  | c :: rest =>
    if c = '-' then !rest.isEmpty && rest.all Char.isDigit
    else (c :: rest).all Char.isDigit

/-- Python int() on an optionally minus-signed digit string. -/
def strToInt (s : String) : Int :=
  match s.toList with
  | '-' :: rest => -(rest.foldl (fun n c => 10 * n + (c.toNat - 48)) 0 : Nat)
  | _ => (strToNat s : Nat)

/-- match_pass with the date pattern of four digits, a hyphen, two
digits, a hyphen, two digits. -/
def dateRegexMatch (s : String) : Bool :=
  match s.toList with
  | [y1, y2, y3, y4, c1, m1, m2, c2, d1, d2] =>
    y1.isDigit && y2.isDigit && y3.isDigit && y4.isDigit && c1 == '-' &&
      m1.isDigit && m2.isDigit && c2 == '-' && d1.isDigit && d2.isDigit
  | _ => false

/-- Day count of a month, with the Gregorian leap rule, as
datetime.strptime validates it. -/
def daysInMonth (y m : Nat) : Nat :=
  if m = 2 then
    (if y % 4 = 0 && (y % 100 != 0 || y % 400 = 0) then 29 else 28)
  else if m = 4 || m = 6 || m = 9 || m = 11 then 30 else 31

/-- datetime.strptime(data, percent-Y-m-d).date() after the regex has
matched: none models the uncaught ValueError on a calendar-invalid
string; a valid date is encoded as y*10000+m*100+d, strictly monotone
in calendar order. -/
def parseYmd (s : String) : Option Nat :=
  if dateRegexMatch s then
    let y := strToNat (s.take 4)
    let m := strToNat ((s.drop 5).take 2)
    let d := strToNat ((s.drop 8).take 2)
    if 1 ≤ y && 1 ≤ m && m ≤ 12 && 1 ≤ d && d ≤ daysInMonth y m then
      some (y * 10000 + m * 100 + d)
    else none
  else none

/-- Split a character list on the dot character, the way Python
str.split partitions a string (empty groups preserved). -/
def splitOnDot (cs : List Char) : List (List Char) :=
  match cs with
  | [] => [[]]
  | c :: rest =>
    let r := splitOnDot rest
    if c = '.' then [] :: r
    else
      match r with
      | [] => [[c]]
      | g :: gs => (c :: g) :: gs

/-- Nonempty all-digit character group. -/
def digitsGroup (l : List Char) : Bool :=
  !l.isEmpty && l.all Char.isDigit

/-- Numeric value of a digit character group. -/
def natOfDigits (l : List Char) : Nat :=
  l.foldl (fun n c => 10 * n + (c.toNat - 48)) 0

/-- match_pass with the unsigned number pattern of currency_rate and
selling_price: digits, or digits dot digits. -/
def decimalRegexMatch (s : String) : Bool :=
  match splitOnDot s.toList with
  | [a] => digitsGroup a
  | [a, b] => digitsGroup a && digitsGroup b
  | _ => false

/-- Python float() on a string matched by decimalRegexMatch, as an
exact rational (the binary float rounding of the source is dropped;
no verified claim compares a parsed value against a differently
obtained numeric). -/
def parseSimpleRat (s : String) : Rat :=
  match splitOnDot s.toList with
  | [a] => (natOfDigits a : Rat)
  | [a, b] => (natOfDigits a : Rat) + (natOfDigits b : Rat) / ((10 : Rat) ^ b.length)
  | _ => 0

/-- apnde (command_line.py lines 238-245): append an error name only
if it is not yet in the list. -/
def apnde (errList : List String) (err : String) : List String :=
  if errList.contains err then errList else errList ++ [err]

/-- An ExchangeRate staging record: the raw text fields checkout_forex
reads, plus its staging id (origin_id in the warehouse). -/
structure StageExchangeRate where
  id : Nat
  primary_currency_id : String
  secondary_currency_id : String
  date_valid : String
  currency_rate : String
deriving DecidableEq

/-- Result of the field-validation part of checkout_forex: crash marks
the uncaught ValueError of strptime on a regex-passing but
calendar-invalid date. -/
structure ForexCheckoutRes where
  crash : Bool
  wparams : Params
  fields_in_error : List String
  ccache : CurCache
deriving DecidableEq

/-- The parameter-building part of checkout_forex (command_line.py
lines 288-331): warehouse_start, then the four field checks in source
order, accumulating wparams and fields_in_error.  The parsed rate is
stored under the key "rate" (line 328). -/
def checkout_forex_params (cc : CurCache) (curStore : List CurRow)
    (s : StageExchangeRate) (batchId : Nat) : ForexCheckoutRes :=
  let wp0 : Params := [("batch_id", Val.vnat batchId), ("origin_id", Val.vnat s.id)]
  let r1 : Option CurRow × CurCache :=
    if digitsMatch s.primary_currency_id then
      get_currency cc curStore (strToNat s.primary_currency_id)
    else (none, cc)
  let st1 : Params × List String :=
    match r1.1 with
    | some c => (wp0 ++ [("currency_from", Val.vcur c.id)], [])
    | none => (wp0, apnde [] "primary_currency_id")
  let r2 : Option CurRow × CurCache :=
    if digitsMatch s.secondary_currency_id then
      get_currency r1.2 curStore (strToNat s.secondary_currency_id)
    else (none, r1.2)
  let st2 : Params × List String :=
    match r2.1 with
    | some c => (st1.1 ++ [("currency_to", Val.vcur c.id)], st1.2)
    | none => (st1.1, apnde st1.2 "secondary_currency_id")
  if dateRegexMatch s.date_valid then
    match parseYmd s.date_valid with
    | some d =>
      let st3 : Params × List String :=
        (st2.1 ++ [("date_valid", Val.vdate d)], st2.2)
      let st4 : Params × List String :=
        if decimalRegexMatch s.currency_rate then
          (st3.1 ++ [("rate", Val.vrat (parseSimpleRat s.currency_rate))], st3.2)
        else (st3.1, apnde st3.2 "currency_rate")
      ⟨false, st4.1, st4.2, r2.2⟩
    | none => ⟨true, st2.1, st2.2, r2.2⟩
  else
    let st3 : Params × List String := (st2.1, apnde st2.2 "date_valid")
    let st4 : Params × List String :=
      if decimalRegexMatch s.currency_rate then
        (st3.1 ++ [("rate", Val.vrat (parseSimpleRat s.currency_rate))], st3.2)
      else (st3.1, apnde st3.2 "currency_rate")
    ⟨false, st4.1, st4.2, r2.2⟩

/-- Python truthiness of the original_price entry: None and 0.0 are
falsy (`if cur_t and cur_f and datev and org_p`). -/
def ratTruthy (o : Option Rat) : Bool :=
  match o with
  | none => false
  | some q => !(decide (q = 0))

/-- Primary key of a resolved currency option (only read under an
isSome guard, mirroring attribute access on the object). -/
def oid (o : Option CurRow) : Nat :=
  match o with
  | some c => c.id
  | none => 0

/-- Result of the USD-conversion segment of checkout_offer
(command_line.py lines 433-460): crash marks an uncaught exception
(AttributeError on CURRENCY_USD.code with CURRENCY_USD None, or
MultipleObjectsReturned from a lookup); errs is fields_in_error after
the segment; resolver_calls counts get_forex calls. -/
structure UsdSegRes where
  crash : Bool
  price_usd : Option Rat
  errs : List String
  resolver_calls : Nat
  fcache : FxCache
  ccache : CurCache
deriving DecidableEq

/-- The composite conversion failure of checkout_offer (lines 457-460):
currency_id, selling_price and checkin_date are appended (each at most
once) when neither the USD shortcut nor a forex applies. -/
def compositeErrs (errs : List String) : List String :=
  apnde (apnde (apnde errs "currency_id") "selling_price") "checkin_date"

/-- The price-assignment branch of checkout_offer (lines 451-460),
entered after the optional get_forex call: `if cur_f and
CURRENCY_USD.code == cur_f.code` dereferences the global CURRENCY_USD
without a None guard — with cur_f truthy and CURRENCY_USD None this is
an uncaught AttributeError. -/
def usd_finish (cc : CurCache) (fc : FxCache) (forex : Option FxRow)
    (calls : Nat) (cur_t cur_f : Option CurRow) (org_p : Option Rat)
    (errs0 : List String) : UsdSegRes :=
  match cur_f with
  | some f =>
    match cur_t with
    | none => ⟨true, none, errs0, calls, fc, cc⟩
    | some u =>
      if u.code = f.code then ⟨false, org_p, errs0, calls, fc, cc⟩
      else
        match forex with
        | some fx => ⟨false, some (org_p.getD 0 * fx.rate), errs0, calls, fc, cc⟩
        | none => ⟨false, none, compositeErrs errs0, calls, fc, cc⟩
  | none =>
    match forex with
    | some fx => ⟨false, some (org_p.getD 0 * fx.rate), errs0, calls, fc, cc⟩
    | none => ⟨false, none, compositeErrs errs0, calls, fc, cc⟩

/-- The middle of the USD segment (lines 441-450): get_forex is called
whenever the base currency, the original currency, the check-in date
and a truthy price are all available — including when the original
currency is the base currency itself. -/
def usd_core (cc : CurCache) (curStore : List CurRow) (fc : FxCache)
    (fstore : List FxRow) (cur_t cur_f : Option CurRow)
    (datev : Option Nat) (org_p : Option Rat) (errs0 : List String) :
    UsdSegRes :=
  if cur_t.isSome && cur_f.isSome && datev.isSome && ratTruthy org_p then
    let fr := get_forex cc curStore fc fstore (oid cur_f, oid cur_t, datev.getD 0)
    match fr.look with
    | .crash => ⟨true, none, errs0, 1, fr.fcache, fr.ccache⟩
    | .hit r => usd_finish fr.ccache fr.fcache (some r) 1 cur_t cur_f org_p errs0
    | .found r => usd_finish fr.ccache fr.fcache (some r) 1 cur_t cur_f org_p errs0
    | .notFound => usd_finish fr.ccache fr.fcache none 1 cur_t cur_f org_p errs0
  else usd_finish cc fc none 0 cur_t cur_f org_p errs0

/-- The USD-conversion segment of checkout_offer (lines 433-460),
starting at the base-currency resolution: use the CURRENCY_USD global
if set, otherwise the Currency lookup by code "USD" with DoesNotExist
caught (MultipleObjectsReturned is not and crashes); the global is then
assigned the result, None included. -/
def usd_conversion (cc : CurCache) (curStore : List CurRow) (fc : FxCache)
    (fstore : List FxRow) (cur_f : Option CurRow) (datev : Option Nat)
    (org_p : Option Rat) (errs0 : List String) : UsdSegRes :=
  match cc.usd with
  | some u =>
    usd_core ⟨cc.map, some u⟩ curStore fc fstore (some u) cur_f datev org_p errs0
  | none =>
    match curStore.filter (fun c => decide (c.code = "USD")) with
    | [] => usd_core ⟨cc.map, none⟩ curStore fc fstore none cur_f datev org_p errs0
    | [u] => usd_core ⟨cc.map, some u⟩ curStore fc fstore (some u) cur_f datev org_p errs0
    | _ => ⟨true, none, errs0, 0, fc, ⟨cc.map, none⟩⟩

/-- The two destination tables an offer may be checked out into. -/
inductive OfferDest where
  | validOffer
  | invalidOffer
deriving DecidableEq

/-- Result of the destination-selection tail of checkout_offer
(command_line.py lines 467-477): when the flag parses, check_finalise
is reached with the chosen model; when it does not, the local
offer_model is referenced while unbound at the check_finalise call —
an uncaught UnboundLocalError, modelled as crash. -/
inductive OfferTailRes where
  | finalise (dest : OfferDest) (wparams : Params) (errs : List String)
  | crash
deriving DecidableEq

/-- The valid_offer_flag tail of checkout_offer: `-1` selects
InvalidOffer, any other parsed integer selects ValidOffer and presets
invalid to False; an unparseable flag leaves offer_model unbound and
the subsequent call crashes. -/
def offer_model_select (wparams : Params) (errs : List String)
    (flag : String) : OfferTailRes :=
  if signedIntMatch flag then
    if strToInt flag = -1 then .finalise .invalidOffer wparams errs
    else .finalise .validOffer (wparams ++ [("invalid", Val.vbool false)]) errs
  else .crash

/-- The per-record loop of checkout_batch / checkout_table restricted
to the flag tail: each record is processed in sequence and nothing
catches an exception escaping a record, so one crashing record aborts
the whole run (none); otherwise the number of processed records is
returned. -/
def batch_offer_flag_sweep : List String → Option Nat
  | [] => some 0
  | f :: rest =>
    match offer_model_select [] [] f with
    | .crash => none
    | .finalise _ _ _ => (batch_offer_flag_sweep rest).map (· + 1)

/-- A Euro currency row used in concrete runs. -/
def eurRow : CurRow := ⟨1, "EUR", "Euro"⟩

/-- A US-Dollar currency row used in concrete runs. -/
def usdRow : CurRow := ⟨2, "USD", "US Dollar"⟩

/-- A two-currency store. -/
def demoCurStore : List CurRow := [eurRow, usdRow]

/-- A EUR-to-USD forex row dated 2016-01-10. -/
def fxEarly : FxRow := ⟨1, 2, 20160110, 2⟩

/-- A EUR-to-USD forex row dated 2016-01-20. -/
def fxLate : FxRow := ⟨1, 2, 20160120, 3⟩

/-- A forex store holding both EUR-to-USD rows. -/
def demoFxStore : List FxRow := [fxEarly, fxLate]

/-- The empty currency cache (fresh CURRENCY / CURRENCY_USD globals). -/
def emptyCC : CurCache := ⟨[], none⟩

/-- C1 counterexample: the store holds an exact (EUR, USD, 2016-01-10)
row, yet resolving that very key on a cache miss returns the later
(2016-01-20) row — the fallback query unconditionally overwrites the
exact match, and the row returned is dated after the requested date. -/
theorem c1_exact_match_overwritten :
    (get_forex emptyCC demoCurStore [] demoFxStore (1, 2, 20160110)).look
      = .found fxLate ∧
    fxEarly ∈ demoFxStore ∧ fxEarly.curFrom = 1 ∧ fxEarly.curTo = 2 ∧
    fxEarly.dateValid = 20160110 ∧ fxLate ≠ fxEarly ∧
    20160110 < fxLate.dateValid := by
  decide

/-- First resolution of the missing key (EUR, USD, 2016-01-30) against
the demo stores, used by the C2 counterexample. -/
def c2first : FxRes := get_forex emptyCC demoCurStore [] demoFxStore (1, 2, 20160130)

/-- C2 counterexample: a fallback result is cached under the key of the
row actually found (date 2016-01-20), not under the originally
requested key (date 2016-01-30); a second identical request is
therefore a cache miss that runs the store queries again (outcome
`found`, not `hit`). -/
theorem c2_fallback_cached_under_found_key :
    c2first.look = .found fxLate ∧
    fxLookup c2first.fcache (1, 2, 20160130) = none ∧
    fxLookup c2first.fcache (1, 2, 20160120) = some fxLate ∧
    (get_forex c2first.ccache demoCurStore c2first.fcache demoFxStore
      (1, 2, 20160130)).look = .found fxLate ∧
    (get_forex c2first.ccache demoCurStore c2first.fcache demoFxStore
      (1, 2, 20160130)).look ≠ .hit fxLate := by
  decide

/-- The warehouse parameters a valid USD currency staging record
produces (checkout_currency on code "USD", name "US Dollar"). -/
def c3wparams : Params :=
  [("batch_id", Val.vnat 1), ("origin_id", Val.vnat 7),
   ("code", Val.vstr "USD"), ("name", Val.vstr "US Dollar")]

/-- C3 evaluated at the failing input: checking the same currency
record out twice into an empty warehouse writes two rows with identical
data — models.py declares no uniqueness for Currency, so the second
save raises no IntegrityError, creates a duplicate row, and its outcome
is a fresh write, not Duplicate. -/
theorem c3_currency_double_checkout_duplicates :
    (save_to_warehouse currencyModel [] c3wparams none).outcome
      = .written ⟨0, c3wparams⟩ ∧
    save_to_warehouse currencyModel
        (save_to_warehouse currencyModel [] c3wparams none).store c3wparams none
      = ⟨.written ⟨1, c3wparams⟩, [⟨0, c3wparams⟩, ⟨1, c3wparams⟩], 0⟩ := by
  decide

/-- Offer parameters whose persistence is made to fail with a
non-uniqueness integrity error (an unresolved original_currency
reference) while a row with the same unique field values exists. -/
def c4params : Params :=
  [("batch_id", Val.vnat 1), ("origin_id", Val.vnat 9),
   ("hotel_id", Val.vnat 77), ("breakfast_included", Val.vbool true),
   ("valid_from", Val.vdate 20160101), ("valid_to", Val.vdate 20160105),
   ("original_currency", Val.vcur 3)]

/-- A pre-existing ValidOffer row agreeing with c4params on the
declared unique fields. -/
def c4existing : WRow :=
  ⟨0, [("hotel_id", Val.vnat 77), ("breakfast_included", Val.vbool true),
       ("valid_from", Val.vdate 20160101), ("valid_to", Val.vdate 20160105)]⟩

/-- C4 counterexample: on a non-uniqueness IntegrityError the Writer
does not return Rejected immediately — it runs a dedup lookup against
the store (one `objects.get`) and returns the existing row as a
duplicate. -/
theorem c4_other_integrity_still_dedups :
    save_to_warehouse validOfferModel [c4existing] c4params
        (some .otherIntegrity)
      = ⟨.dup c4existing, [c4existing], 1⟩ := by
  decide

/-- The USD segment run on an all-valid offer whose original currency
is the base currency itself. -/
def c5res : UsdSegRes :=
  usd_conversion emptyCC [usdRow] [] [] (some usdRow) (some 20160110) (some 100) []

/-- C5 counterexample: an offer in the base currency with every needed
value present does get price_usd = original_price, but the Forex
Resolver is still called once — the get_forex call at lines 445-450
precedes the currency-code comparison and is not skipped for USD. -/
theorem c5_usd_offer_still_calls_resolver :
    c5res.resolver_calls = 1 ∧ c5res.price_usd = some 100 ∧
    c5res.crash = false ∧ c5res.errs = [] := by
  decide

/-- The USD segment run with an unresolvable base currency (no USD row
anywhere) on an offer whose own fields are all valid. -/
def c6res : UsdSegRes :=
  usd_conversion emptyCC [eurRow] [] [] (some eurRow) (some 20160110) (some 100) []

/-- C6 evaluated at the failing input: with the base currency
unresolvable and the original currency resolved, checkout_offer does
not reach the composite-failure path — `CURRENCY_USD.code` dereferences
None and the record crashes with no failed field recorded. -/
theorem c6_base_unresolvable_crashes :
    c6res.crash = true ∧ c6res.errs = [] ∧ c6res.price_usd = none := by
  decide

/-- C7 evaluated at the failing input: an unparseable valid_offer_flag
leaves offer_model unbound, the check_finalise call raises
UnboundLocalError, and the batch/sweep loop — which catches nothing —
aborts, leaving later records unprocessed; a run whose flags all parse
processes every record. -/
theorem c7_unparseable_flag_aborts_run :
    offer_model_select [] [] "x" = .crash ∧
    batch_offer_flag_sweep ["1", "x", "2"] = none ∧
    batch_offer_flag_sweep ["1", "-1", "2"] = some 3 := by
  decide

/-- C8 counterexample: both offer tables declare unique_together on
(hotel_id, breakfast_included, valid_from, valid_to); the claimed field
set names checkin_date and checkout_date, which appear in no declared
constraint of either table. -/
theorem c8_claimed_fields_not_declared :
    validOfferModel.unique_together
      = [["hotel_id", "breakfast_included", "valid_from", "valid_to"]] ∧
    invalidOfferModel.unique_together
      = [["hotel_id", "breakfast_included", "valid_from", "valid_to"]] ∧
    "checkin_date" ∈ specClaimedOfferUnique ∧
    "checkout_date" ∈ specClaimedOfferUnique ∧
    ¬ "checkin_date" ∈ ["hotel_id", "breakfast_included", "valid_from", "valid_to"] ∧
    ¬ "checkout_date" ∈ ["hotel_id", "breakfast_included", "valid_from", "valid_to"] := by
  decide

/-- Offer parameters carrying only the declared unique fields, for the
C8 amended theorem. -/
def c8params : Params :=
  [("hotel_id", Val.vnat 7), ("breakfast_included", Val.vbool true),
   ("valid_from", Val.vdate 20160101), ("valid_to", Val.vdate 20160105)]

/-- C8 amended: each offer table is unique on exactly (hotel_id,
breakfast_included, valid_from, valid_to) within its own table: a
repeated insert into ValidOffer resolves to the existing row, while the
same unique values inserted into the separate InvalidOffer table are a
fresh write — the two tables share no uniqueness domain. -/
theorem c8_unique_within_own_table :
    validOfferModel.unique_together
      = [["hotel_id", "breakfast_included", "valid_from", "valid_to"]] ∧
    invalidOfferModel.unique_together
      = [["hotel_id", "breakfast_included", "valid_from", "valid_to"]] ∧
    (save_to_warehouse validOfferModel
        (save_to_warehouse validOfferModel [] c8params none).store
        c8params none).outcome = .dup ⟨0, c8params⟩ ∧
    (save_to_warehouse invalidOfferModel [] c8params none).outcome
      = .written ⟨0, c8params⟩ := by
  decide

/-- C9: over any sequence of currency cache insertions, the base
currency is set by the first inserted currency whose code is "USD"
(when it was unset) and is never overwritten by a later insertion; the
CURRENCY_USD slot holds at most one designated base at any time by
construction. -/
theorem c9_base_currency_first_seen :
    ∀ (l : List CurRow) (cc : CurCache),
      (cc.usd = none →
        (List.foldl add_currency_cache cc l).usd
          = l.find? (fun c => c.code == "USD")) ∧
      ∀ u : CurRow, cc.usd = some u →
        (List.foldl add_currency_cache cc l).usd = some u := by
  intro l
  induction l with
  | nil =>
    intro cc
    exact ⟨fun h => by simpa using h, fun u h => by simpa using h⟩
  | cons c rest ih =>
    intro cc
    constructor
    · intro h
      rw [List.foldl_cons, List.find?_cons]
      cases hc : c.code == "USD" with
      | true =>
        have hadd : (add_currency_cache cc c).usd = some c := by
          simp [add_currency_cache, h, hc]
        simpa [hc] using (ih (add_currency_cache cc c)).2 c hadd
      | false =>
        have hadd : (add_currency_cache cc c).usd = none := by
          simp [add_currency_cache, h, hc]
        simpa [hc] using (ih (add_currency_cache cc c)).1 hadd
    · intro u h
      rw [List.foldl_cons]
      have hadd : (add_currency_cache cc c).usd = some u := by
        simp [add_currency_cache, h]
      exact (ih (add_currency_cache cc c)).2 u hadd

/-- C9 witness: inserting EUR, then USD, then a second USD-coded row
into a fresh cache designates the first USD row and keeps it. -/
theorem c9_base_currency_first_seen_witness :
    (List.foldl add_currency_cache emptyCC
      [eurRow, usdRow, ⟨3, "USD", "Second Dollar"⟩]).usd = some usdRow := by
  have h := (c9_base_currency_first_seen
    [eurRow, usdRow, ⟨3, "USD", "Second Dollar"⟩] emptyCC).1 rfl
  rw [h]
  decide

/-- C4 amended: a numeric-domain failure (decimal.InvalidOperation) is
rejected immediately with no dedup lookup, but a non-uniqueness
IntegrityError is handled exactly like a uniqueness conflict — the
Writer walks the unique constraints, performs a store lookup, and
returns an existing row matching the first complete constraint as a
duplicate instead of rejecting. -/
theorem c4_reject_policy (m : ModelDesc) (store : WStore) (ps : Params)
    (u : List String) (rest : List (List String)) (e : WRow)
    (hfields : (ps.any fun kv => !m.fields.contains kv.1) = false)
    (hu : modelUniques m = u :: rest)
    (hup : (dict_with_fields ps u).isEmpty = false)
    (hmatch : store.filter (fun r => rowMatches r (dict_with_fields ps u)) = [e]) :
    save_to_warehouse m store ps (some .invalidOp) = ⟨.rejected, store, 0⟩ ∧
    save_to_warehouse m store ps (some .otherIntegrity) = ⟨.dup e, store, 1⟩ := by
  constructor
  · simp only [save_to_warehouse, hfields, Bool.false_eq_true, if_false]
  · simp only [save_to_warehouse, hfields, Bool.false_eq_true, if_false, hu]
    simp only [dedupLookup, hup, Bool.false_eq_true, if_false, hmatch,
      Nat.zero_add]

/-- C4 witness: the amended policy at the concrete offer write of the
counterexample input, both for the numeric-domain failure and for the
injected non-uniqueness integrity failure. -/
theorem c4_reject_policy_witness :
    save_to_warehouse validOfferModel [c4existing] c4params (some .invalidOp)
      = ⟨.rejected, [c4existing], 0⟩ ∧
    save_to_warehouse validOfferModel [c4existing] c4params (some .otherIntegrity)
      = ⟨.dup c4existing, [c4existing], 1⟩ :=
  c4_reject_policy validOfferModel [c4existing] c4params
    ["hotel_id", "breakfast_included", "valid_from", "valid_to"] [["id"]]
    c4existing (by decide) (by decide) (by decide) (by decide)

/-- C5 amended: an offer whose original currency bears the base
code of the base currency, with the base resolvable, a check-in date and a
positive price, gets price_usd set to original_price exactly and adds
no failed field — but the Forex Resolver is still called exactly once
(for the currency-to-base pair), its result being ignored. -/
theorem c5_usd_shortcut_price (cc : CurCache) (curStore : List CurRow)
    (fc : FxCache) (fstore : List FxRow) (f u : CurRow) (d : Nat) (p : Rat)
    (errs0 : List String)
    (hbase : cc.usd = some u ∨
      (cc.usd = none ∧ curStore.filter (fun c => decide (c.code = "USD")) = [u]))
    (hcode : u.code = f.code)
    (hp : ¬ p = 0)
    (hnc : (get_forex ⟨cc.map, some u⟩ curStore fc fstore (f.id, u.id, d)).look
      ≠ .crash) :
    (usd_conversion cc curStore fc fstore (some f) (some d) (some p) errs0).crash
      = false ∧
    (usd_conversion cc curStore fc fstore (some f) (some d) (some p) errs0).price_usd
      = some p ∧
    (usd_conversion cc curStore fc fstore (some f) (some d) (some p) errs0).resolver_calls
      = 1 ∧
    (usd_conversion cc curStore fc fstore (some f) (some d) (some p) errs0).errs
      = errs0 := by
  have hcore :
      usd_conversion cc curStore fc fstore (some f) (some d) (some p) errs0
        = usd_core ⟨cc.map, some u⟩ curStore fc fstore (some u) (some f)
            (some d) (some p) errs0 := by
    rcases hbase with h | ⟨h1, h2⟩
    · have : cc = ⟨cc.map, some u⟩ := by cases cc; simp_all
      rw [usd_conversion.eq_def, h]
    · rw [usd_conversion.eq_def, h1, h2]
  rw [hcore]
  have hdp : decide (p = 0) = false := by simp [hp]
  simp only [usd_core, Option.isSome_some, ratTruthy, hdp, Bool.not_false,
    Bool.and_self, Bool.and_true, if_true, oid, Option.getD_some]
  cases hl : (get_forex ⟨cc.map, some u⟩ curStore fc fstore (f.id, u.id, d)).look with
  | crash => exact absurd hl hnc
  | hit r => simp [hl, usd_finish, hcode]
  | found r => simp [hl, usd_finish, hcode]
  | notFound => simp [hl, usd_finish, hcode]

/-- C5 witness: the amended statement at the concrete all-valid USD
offer of the counterexample. -/
theorem c5_usd_shortcut_price_witness :
    (usd_conversion emptyCC [usdRow] [] [] (some usdRow) (some 20160110)
      (some 100) []).crash = false ∧
    (usd_conversion emptyCC [usdRow] [] [] (some usdRow) (some 20160110)
      (some 100) []).price_usd = some 100 ∧
    (usd_conversion emptyCC [usdRow] [] [] (some usdRow) (some 20160110)
      (some 100) []).resolver_calls = 1 ∧
    (usd_conversion emptyCC [usdRow] [] [] (some usdRow) (some 20160110)
      (some 100) []).errs = [] :=
  c5_usd_shortcut_price emptyCC [usdRow] [] [] usdRow usdRow 20160110 100 []
    (Or.inr ⟨rfl, by decide⟩) rfl (by norm_num) (by decide)

theorem get_forex_miss_look (cc : CurCache) (curStore : List CurRow)
    (fc : FxCache) (fstore : List FxRow) (key : FxKey) (cf ct : CurRow)
    (hmiss : fxLookup fc key = none)
    (hcf : (get_currency cc curStore key.1).1 = some cf)
    (hct : (get_currency (get_currency cc curStore key.1).2 curStore
      key.2.1).1 = some ct)
    (hex : (fstore.filter (fun r => currMatch (some cf) r.curFrom &&
        currMatch (some ct) r.curTo && decide (r.dateValid = key.2.2))).length
        ≤ 1) :
    (get_forex cc curStore fc fstore key).look
      = match mostRecent (fstore.filter (fun r =>
          currMatch (some cf) r.curFrom && currMatch (some ct) r.curTo)) with
        | some r => .found r
        | none => .notFound := by
  have hnotwo : ¬ (2 ≤ (fstore.filter (fun r =>
      currMatch (some cf) r.curFrom && currMatch (some ct) r.curTo &&
        decide (r.dateValid = key.2.2))).length) := by
    omega
  simp only [get_forex, hmiss, hcf, hct]
  rw [if_neg hnotwo]
  cases hmr : mostRecent (fstore.filter (fun r =>
      currMatch (some cf) r.curFrom && currMatch (some ct) r.curTo)) with
  | none => simp [hmr]
  | some r0 => simp [hmr]

/-- C1 amended: on a cache miss with both currencies resolvable and at
most one exact row, the resolver ignores the requested date entirely:
it returns a store row with matching (from, to) of maximal date_valid
(even when an exact row for the requested date exists, and even when
that maximal date is after the requested date), and reports not_found
exactly when no (from, to) row exists at all. -/
theorem c1_resolver_ignores_requested_date (cc : CurCache)
    (curStore : List CurRow) (fc : FxCache) (fstore : List FxRow)
    (key : FxKey) (cf ct : CurRow)
    (hmiss : fxLookup fc key = none)
    (hcf : (get_currency cc curStore key.1).1 = some cf)
    (hct : (get_currency (get_currency cc curStore key.1).2 curStore
      key.2.1).1 = some ct)
    (hex : (fstore.filter (fun r => currMatch (some cf) r.curFrom &&
        currMatch (some ct) r.curTo && decide (r.dateValid = key.2.2))).length
        ≤ 1) :
    (fstore.filter (fun r => currMatch (some cf) r.curFrom &&
        currMatch (some ct) r.curTo) = [] →
      (get_forex cc curStore fc fstore key).look = .notFound) ∧
    (∀ r, (get_forex cc curStore fc fstore key).look = .found r →
      r ∈ fstore.filter (fun r => currMatch (some cf) r.curFrom &&
          currMatch (some ct) r.curTo) ∧
      ∀ x ∈ fstore.filter (fun r => currMatch (some cf) r.curFrom &&
          currMatch (some ct) r.curTo), x.dateValid ≤ r.dateValid) ∧
    (fstore.filter (fun r => currMatch (some cf) r.curFrom &&
        currMatch (some ct) r.curTo) ≠ [] →
      ∃ r, (get_forex cc curStore fc fstore key).look = .found r) := by
  have hlook := get_forex_miss_look cc curStore fc fstore key cf ct
    hmiss hcf hct hex
  cases hmr : mostRecent (fstore.filter (fun r =>
      currMatch (some cf) r.curFrom && currMatch (some ct) r.curTo)) with
  | none =>
    rw [hmr] at hlook
    have hlook2 : (get_forex cc curStore fc fstore key).look = .notFound := hlook
    refine ⟨fun _ => hlook2, ?_, ?_⟩
    · intro r hr
      rw [hlook2] at hr
      exact absurd hr (by simp)
    · intro hne
      exact absurd (mostRecent_eq_none hmr) hne
  | some r0 =>
    rw [hmr] at hlook
    have hlook2 : (get_forex cc curStore fc fstore key).look = .found r0 := hlook
    refine ⟨?_, ?_, fun _ => ⟨r0, hlook2⟩⟩
    · intro hnil
      rw [hnil] at hmr
      simp [mostRecent] at hmr
    · intro r hr
      rw [hlook2] at hr
      injection hr with h
      subst h
      exact ⟨mostRecent_mem hmr, mostRecent_max hmr⟩

/-- C1 witness: the amended behaviour at the concrete miss
(EUR, USD, 2016-01-30) against the demo stores. -/
theorem c1_resolver_ignores_requested_date_witness :
    ∃ r, (get_forex emptyCC demoCurStore [] demoFxStore
      (1, 2, 20160130)).look = .found r :=
  (c1_resolver_ignores_requested_date emptyCC demoCurStore [] demoFxStore
    (1, 2, 20160130) eurRow usdRow (by decide) (by decide) (by decide)
    (by decide)).2.2 (by decide)

theorem fxLookup_cons (k0 : FxKey) (r0 : FxRow) (fc : FxCache) (key : FxKey) :
    fxLookup ((k0, r0) :: fc) key
      = if k0 = key then some r0 else fxLookup fc key := by
  by_cases h : k0 = key
  · simp [fxLookup, List.find?_cons, h]
  · simp [fxLookup, List.find?_cons, h]

theorem get_forex_hit (cc : CurCache) (curStore : List CurRow)
    (fc : FxCache) (fstore : List FxRow) (key : FxKey) (r : FxRow)
    (h : fxLookup fc key = some r) :
    (get_forex cc curStore fc fstore key).look = .hit r := by
  simp only [get_forex, h]

theorem get_forex_found_fcache (cc : CurCache) (curStore : List CurRow)
    (fc : FxCache) (fstore : List FxRow) (key : FxKey) (r : FxRow)
    (hmiss : fxLookup fc key = none)
    (hfound : (get_forex cc curStore fc fstore key).look = .found r) :
    (get_forex cc curStore fc fstore key).fcache = add_forex_cache fc r := by
  simp only [get_forex, hmiss] at hfound ⊢
  split at hfound
  · simp at hfound
  · rename_i h2
    rw [if_neg h2]
    split at hfound
    · rename_i r0 hmr
      have he : FxLook.found r0 = FxLook.found r := hfound
      injection he with h
      show add_forex_cache fc r0 = add_forex_cache fc r
      rw [h]
    · have he : FxLook.notFound = FxLook.found r := hfound
      exact absurd he (by simp)

/-- C2 amended: a row found on a cache miss (exact or fallback) is
cached under the key built from the found row and its own
(currency_from, currency_to, date_valid) — not under the originally
requested key: when the found date differs from the requested date the
requested key is still absent from the cache afterwards (so an
identical second request runs the store queries again), and only when
the found key coincides with the requested key is the second request a
cache hit. -/
theorem c2_resolution_caches_found_key (cc : CurCache)
    (curStore : List CurRow) (fc : FxCache) (fstore : List FxRow)
    (key : FxKey) (r : FxRow)
    (hmiss : fxLookup fc key = none)
    (hfound : (get_forex cc curStore fc fstore key).look = .found r) :
    fxLookup (get_forex cc curStore fc fstore key).fcache (fxKeyOf r)
      = some r ∧
    (r.dateValid ≠ key.2.2 →
      fxLookup (get_forex cc curStore fc fstore key).fcache key = none) ∧
    (fxKeyOf r = key →
      (get_forex (get_forex cc curStore fc fstore key).ccache curStore
        (get_forex cc curStore fc fstore key).fcache fstore key).look
        = .hit r) := by
  have hfc := get_forex_found_fcache cc curStore fc fstore key r hmiss hfound
  refine ⟨?_, ?_, ?_⟩
  · rw [hfc, add_forex_cache, fxLookup_cons, if_pos rfl]
  · intro hd
    have hne : ¬ (fxKeyOf r = key) := by
      intro h
      exact hd (congrArg (fun k => k.2.2) h)
    rw [hfc, add_forex_cache, fxLookup_cons, if_neg hne]
    exact hmiss
  · intro hk
    have h1 : fxLookup (get_forex cc curStore fc fstore key).fcache key
        = some r := by
      rw [hfc, add_forex_cache, fxLookup_cons, if_pos hk]
    exact get_forex_hit _ curStore _ fstore key r h1

/-- C2 witness: after the concrete fallback resolution of
(EUR, USD, 2016-01-30), the originally requested key is not in the
cache. -/
theorem c2_resolution_caches_found_key_witness :
    fxLookup (get_forex emptyCC demoCurStore [] demoFxStore
      (1, 2, 20160130)).fcache (1, 2, 20160130) = none :=
  (c2_resolution_caches_found_key emptyCC demoCurStore [] demoFxStore
    (1, 2, 20160130) fxLate (by decide) (by decide)).2.1 (by decide)

/-- C10: for an ExchangeRate staging record whose four fields all
validate (both currency ids resolve, the date parses, the rate
matches), checkout_forex builds its parameter set with the parsed rate
under the key "rate"; "rate" is not a declared field of the warehouse
Forex model (whose rate column is "exchange_rate"), so constructing a
Forex row from such a parameter set crashes (TypeError on the unknown
keyword) for every store state and every injected engine outcome. -/
theorem c10_rate_key_never_constructs (cc : CurCache)
    (curStore : List CurRow) (s : StageExchangeRate) (b : Nat)
    (c1 c2 : CurRow) (d : Nat)
    (h1 : digitsMatch s.primary_currency_id = true)
    (h2 : (get_currency cc curStore (strToNat s.primary_currency_id)).1
      = some c1)
    (h3 : digitsMatch s.secondary_currency_id = true)
    (h4 : (get_currency (get_currency cc curStore
        (strToNat s.primary_currency_id)).2 curStore
        (strToNat s.secondary_currency_id)).1 = some c2)
    (h5 : dateRegexMatch s.date_valid = true)
    (h6 : parseYmd s.date_valid = some d)
    (h7 : decimalRegexMatch s.currency_rate = true) :
    (checkout_forex_params cc curStore s b).crash = false ∧
    (checkout_forex_params cc curStore s b).fields_in_error = [] ∧
    pget (checkout_forex_params cc curStore s b).wparams "rate"
      = some (.vrat (parseSimpleRat s.currency_rate)) ∧
    ¬ "rate" ∈ forexModel.fields ∧
    "exchange_rate" ∈ forexModel.fields ∧
    ∀ (wstore : WStore) (ext : Option ExtFail),
      (save_to_warehouse forexModel wstore
        (checkout_forex_params cc curStore s b).wparams ext).outcome
        = .crash := by
  have hres : checkout_forex_params cc curStore s b
      = ⟨false,
         [("batch_id", Val.vnat b), ("origin_id", Val.vnat s.id),
          ("currency_from", Val.vcur c1.id), ("currency_to", Val.vcur c2.id),
          ("date_valid", Val.vdate d),
          ("rate", Val.vrat (parseSimpleRat s.currency_rate))],
         [],
         (get_currency (get_currency cc curStore
           (strToNat s.primary_currency_id)).2 curStore
           (strToNat s.secondary_currency_id)).2⟩ := by
    simp [checkout_forex_params, h1, h2, h3, h4, h5, h6, h7]
  rw [hres]
  exact ⟨rfl, rfl, rfl, by decide, by decide, fun wstore ext => rfl⟩

/-- The all-valid ExchangeRate staging record of the C10 witness. -/
def c10stage : StageExchangeRate := ⟨9, "1", "2", "2016-01-15", "1.5"⟩

/-- C10 witness: the concrete all-valid record stores its rate under
"rate" and its parameter set can never be persisted as a Forex row. -/
theorem c10_rate_key_never_constructs_witness :
    pget (checkout_forex_params emptyCC demoCurStore c10stage 4).wparams "rate"
      = some (.vrat (parseSimpleRat "1.5")) ∧
    (save_to_warehouse forexModel []
      (checkout_forex_params emptyCC demoCurStore c10stage 4).wparams
      none).outcome = .crash :=
  ⟨(c10_rate_key_never_constructs emptyCC demoCurStore c10stage 4 eurRow
      usdRow 20160115 (by decide) (by decide) (by decide) (by decide)
      (by decide) (by decide) (by decide)).2.2.1,
   (c10_rate_key_never_constructs emptyCC demoCurStore c10stage 4 eurRow
      usdRow 20160115 (by decide) (by decide) (by decide) (by decide)
      (by decide) (by decide) (by decide)).2.2.2.2.2 [] none⟩

end HqW
